import Mathlib

/-!
Verification of the Top-N Conversation Watcher core of the wpmail repository
(WhatsApp top-3 monitor). The definitions below are a shallow embedding of the
JavaScript source: the selector-chain resolver, the snapshot extractor
`getSimpleTop3Names`, the change detector `arraysEqual`, the poll loop body of
`startMonitoring`, the notifier `sendTop3Notification`, and the startup
validation in `main`.
-/

namespace Wpmail

/-! ### String helpers modelling the JavaScript primitives used by the code -/

/-- Drop leading whitespace characters (model of the leading half of the
JavaScript `String.prototype.trim`). -/
def ltrimChars : List Char → List Char
  | [] => []
  | c :: r => if c.isWhitespace then ltrimChars r else c :: r

/-- Model of the JavaScript `.trim()`: remove whitespace from both ends. -/
def jsTrim (s : String) : String :=
  ((ltrimChars ((ltrimChars s.data).reverse)).reverse).asString

/-- Does `hay` start with `pat`? (helper for substring containment). -/
def beginsWith : List Char → List Char → Bool
  | _, [] => true
  | [], _ :: _ => false
  | a :: as, b :: bs => a == b && beginsWith as bs

/-- Does `hay` contain `pat` as a contiguous segment? Model of the JavaScript
`String.prototype.includes`. -/
def containsSeg : List Char → List Char → Bool
  | [], pat => beginsWith [] pat
  | a :: as, pat => beginsWith (a :: as) pat || containsSeg as pat

/-- Model of `text.includes('http')` from the label-extraction heuristic. -/
def containsHttp (s : String) : Bool :=
  containsSeg s.data "http".data

/-- Model of the regex test `text.match` against the anchored pattern
"one or two digits, a colon, two digits" (an HH:MM timestamp). -/
def isTimeText (s : String) : Bool :=
  match s.data with
  | [a, b, c, d] => a.isDigit && b == ':' && c.isDigit && d.isDigit
  | [a, b, c, d, e] => a.isDigit && b.isDigit && c == ':' && d.isDigit && e.isDigit
  | _ => false

/-! ### DOM model for the chat-list entries -/

/-- A span element inside a chat-list entry, in document order as returned by
`querySelectorAll`. `title` is the value of the `title` attribute when the
attribute is present (`span[title]` selects exactly those spans). The two text
fields model `textContent` and `innerText`. -/
structure SpanEl where
  title : Option String
  textContent : String
  innerText : String
deriving DecidableEq, Repr

/-- Model of `span.textContent || span.innerText` (JavaScript `||` falls
through on the empty string). -/
def spanText (sp : SpanEl) : String :=
  if sp.textContent == "" then sp.innerText else sp.textContent

/-- A conversation (chat-list) entry: its descendant spans in document order. -/
structure ChatEntry where
  spans : List SpanEl
deriving DecidableEq, Repr

/-- The document as seen by the extractor: `query s` is the node list returned
by `page.$$(s)` for a selector string `s`. -/
structure Doc where
  query : String → List ChatEntry

/-! ### Decimal rendering of Date.now(), for the synthesized placeholder -/

/-- Fuel-driven worker for `natDigitsRev`; any fuel above the number itself
is enough, so the out-of-fuel branch is never taken in `natDigitsRev`. -/
def natDigitsRevAux : Nat → Nat → List Nat
  | _, 0 => []
  | n, fuel + 1 => if n < 10 then [n] else (n % 10) :: natDigitsRevAux (n / 10) fuel

/-- Little-endian decimal digits of a natural number (at least one digit). -/
def natDigitsRev (n : Nat) : List Nat :=
  natDigitsRevAux n (n + 1)

/-- Decimal string of a natural number, modelling the JavaScript number-to-
string conversion used by the template literal around `Date.now()`. -/
def natToString (n : Nat) : String :=
  (((natDigitsRev n).reverse).map Nat.digitChar).asString

/-- The synthesized fallback label `Contact $\x7bDate.now()\x7d` produced when
neither extraction heuristic finds a usable label. -/
def contactPlaceholder (now : Nat) : String :=
  "Contact " ++ natToString now

/-! ### Label extraction (the page.evaluate body in getSimpleTop3Names) -/

/-- The test applied to a `title` attribute value:
`title && title.trim() && title.length > 1 && title.length < 50`.
Note the length test is on the raw (untrimmed) value. -/
def titleOk (t : String) : Bool :=
  (t != "") && (jsTrim t != "") && decide (1 < t.length) && decide (t.length < 50)

/-- First span carrying a `title` attribute whose value passes `titleOk`
(the loop over `el.querySelectorAll('span[title]')`). -/
def firstTitleMatch : List SpanEl → Option String
  | [] => none
  | sp :: rest =>
    match sp.title with
    | some t => if titleOk t then some t else firstTitleMatch rest
    | none => firstTitleMatch rest

/-- The test applied to a span's text:
`text && text.trim() && text.length > 1 && text.length < 50 &&` not an HH:MM
timestamp `&&` no "http" substring. The length, timestamp and substring tests
are on the raw (untrimmed) text. -/
def textOk (s : String) : Bool :=
  (s != "") && (jsTrim s != "") && decide (1 < s.length) && decide (s.length < 50)
    && !(isTimeText s) && !(containsHttp s)

/-- First span whose text passes `textOk` (the fallback loop over
`el.querySelectorAll('span')`). -/
def firstTextMatch : List SpanEl → Option String
  | [] => none
  | sp :: rest => if textOk (spanText sp) then some (spanText sp) else firstTextMatch rest

/-- The label extracted from one chat entry by the `page.evaluate` callback:
first a qualifying `title` attribute (trimmed), else a qualifying span text
(trimmed), else the synthesized placeholder stamped with `Date.now()`. -/
def extractLabel (spans : List SpanEl) (now : Nat) : String :=
  match firstTitleMatch spans with
  | some t => jsTrim t
  | none =>
    match firstTextMatch spans with
    | some s => jsTrim s
    | none => contactPlaceholder now

/-! ### Selector-chain resolution and the snapshot extractor -/

/-- The selector fallback loop: `chats = await page.$$(selector); if
(chats.length > 0) break;` — the first query with a non-empty result wins;
if every query yields zero matches the result is the empty list. -/
def resolveChain (query : String → List ChatEntry) : List String → List ChatEntry
  | [] => []
  | sel :: rest =>
    let r := query sel
    if 0 < r.length then r else resolveChain query rest

/-- The conversation-list selector chain of getSimpleTop3Names, verbatim. -/
def chatSelectors : List String :=
  ["[data-testid=\"chat-list\"] div[role=\"listitem\"]",
   "#pane-side div[role=\"listitem\"]",
   "[data-testid=\"side\"] div[role=\"listitem\"]",
   "div[role=\"listitem\"]"]

/-- Pad with empty strings up to length 3, then slice to the first 3
(the `while (top3Names.length < 3) top3Names.push('')` loop and the final
`slice(0, 3)`). -/
def padTo3 (l : List String) : List String :=
  (l ++ List.replicate (3 - l.length) "").take 3

/-- Model of `getSimpleTop3Names`. `err = true` models an exception raised
inside the method's try block (a page wait or evaluate failure): the catch
returns the `Error` sentinel. Otherwise the selector chain is resolved; an
empty result yields the no-chats sentinel; else the first `min(3, chats)`
entries are labelled and the result is padded to exactly three strings.
`now` is the `Date.now()` value observed by this extraction. -/
def getSimpleTop3Names (d : Doc) (now : Nat) (err : Bool) : List String :=
  if err then ["Error", "", ""]
  else
    let chats := resolveChain d.query chatSelectors
    if chats.length = 0 then ["No chats found", "", ""]
    else padTo3 ((chats.take 3).map (fun c => extractLabel c.spans now))

/-! ### Change detector -/

/-- Model of `arraysEqual`: length equality then pairwise element equality. -/
def arraysEqual (a b : List String) : Bool :=
  if a.length = b.length then (a.zip b).all (fun p => p.1 == p.2) else false

/-! ### Notifier and the poll loop of startMonitoring -/

/-- Outcome of the external mail collaborator's `sendMail` call. -/
inductive MailResult where
  | ok
  | raised
deriving DecidableEq, Repr

/-- Model of `sendTop3Notification`: the whole body is wrapped in try/catch,
so a delivery failure is logged and swallowed — the method always returns
normally. The Bool records whether the mail was actually delivered. -/
def sendTop3Notification : MailResult → Bool
  | .ok => true
  | .raised => false

/-- What one iteration of the `while (isRunning)` loop encounters:
either the try block runs to completion, with `snap` the snapshot returned by
`getSimpleTop3Names` and `mail` the collaborator's behavior if a send happens,
or an exception escapes the try block into the loop-level catch handler. -/
inductive TickInput where
  | work (snap : List String) (mail : MailResult)
  | exn
deriving DecidableEq, Repr

/-- Result of one loop iteration: the baseline (`savedTop3`) afterwards,
whether a notification send was attempted (and whether it was delivered),
and the `waitForTimeout` calls the iteration performs after its try-block
work ends — the catch handler's extra 5000 ms wait, when the tick failed. -/
structure TickOut where
  saved : List String
  sent : Option Bool
  tailWaits : List Nat
deriving DecidableEq, Repr

/-- The `waitForTimeout(5000)` at the top of every loop iteration, performed
before the iteration's snapshot extraction. -/
def headWait : Nat := 5000

/-- One iteration of the monitoring loop, from `startMonitoring`:
compare the fresh snapshot against `savedTop3`; on change send a notification
and replace the baseline; on equality do nothing. An exception escaping the
try block is caught by the loop-level handler, which logs and performs one
extra `waitForTimeout(5000)` before the loop re-enters. -/
def startMonitoringTick (saved : List String) : TickInput → TickOut
  | .work snap mail =>
    let hasChanged := !(arraysEqual snap saved)
    if hasChanged then ⟨snap, some (sendTop3Notification mail), []⟩
    else ⟨saved, none, []⟩
  | .exn => ⟨saved, none, [5000]⟩

/-- Total waiting between the end of one tick's try-block work and the start
of the next tick's work: the failed tick's catch-handler waits plus the next
iteration's head wait. -/
def delayBeforeNextWork (saved : List String) (i : TickInput) : Nat :=
  (startMonitoringTick saved i).tailWaits.sum + headWait

/-- The baseline after the loop consumes a sequence of tick inputs. -/
def runLoop (saved : List String) : List TickInput → List String
  | [] => saved
  | i :: rest => runLoop (startMonitoringTick saved i).saved rest

/-- Number of notification attempts the loop makes over a sequence of ticks. -/
def notifCount (saved : List String) : List TickInput → Nat
  | [] => 0
  | i :: rest =>
    let out := startMonitoringTick saved i
    (if out.sent.isSome then 1 else 0) + notifCount out.saved rest

/-- Timestamp at which extraction number `k` observes `Date.now()` in the
monitoring loop, for a loop started at time `t0`: every round separates
consecutive extractions by the 5000 ms poll wait plus the 1000 ms
stabilization wait inside `getSimpleTop3Names` (work itself modelled as
instantaneous; only strict monotonicity is used). -/
def extractTime (t0 k : Nat) : Nat := t0 + k * 6000

/-! ### Startup validation in main -/

/-- The three required configuration values, as read from the environment;
`none` models an unset variable. -/
structure Env where
  EMAIL_USER : Option String
  EMAIL_PASS : Option String
  EMAIL_TO : Option String

/-- JavaScript falsiness of `process.env.X`: unset, or set to the empty
string. -/
def envMissing : Option String → Bool
  | none => true
  | some s => s == ""

/-- The guard `!process.env.EMAIL_USER || !process.env.EMAIL_PASS ||
!process.env.EMAIL_TO` in `main`. -/
def configMissing (e : Env) : Bool :=
  envMissing e.EMAIL_USER || envMissing e.EMAIL_PASS || envMissing e.EMAIL_TO

/-- Whether `initialize()` (browser launch, navigation, authentication wait)
completes or throws; `waitForAuthentication` re-raises its timeout error and
`initialize` re-raises anything it catches. -/
inductive InitOutcome where
  | ok
  | raised
deriving DecidableEq, Repr

/-- Observable fate of the process after `main` runs. -/
inductive ProcessResult where
  | exitFailure
  | running
deriving DecidableEq, Repr

/-- Model of `main`: a missing required email configuration value throws,
and the surrounding catch calls `process.exit(1)`; an error thrown by
`initialize()` reaches the same catch and also exits with failure. -/
def mainStartup (env : Env) (init : InitOutcome) : ProcessResult :=
  if configMissing env then .exitFailure
  else
    match init with
    | .ok => .running
    | .raised => .exitFailure

/-! ### Spec-side definitions (for comparison against the code) -/

/-- The title-attribute test as the spec words it: the trimmed value has
length strictly between 1 and 50. Stated from the spec, for comparison with
`titleOk`, which tests the raw length. -/
def specTitleOk (t : String) : Bool :=
  decide (1 < (jsTrim t).length) && decide ((jsTrim t).length < 50)

/-- The span-text test as the spec words it: the trimmed text has length
strictly between 1 and 50, is not an HH:MM timestamp and has no URL
substring. Stated from the spec, for comparison with `textOk`. -/
def specTextOk (s : String) : Bool :=
  decide (1 < (jsTrim s).length) && decide ((jsTrim s).length < 50)
    && !(isTimeText (jsTrim s)) && !(containsHttp (jsTrim s))

/-- Label extraction as claim C4 words it: first title attribute whose
trimmed value qualifies, else first span text whose trimmed value qualifies,
else the synthesized placeholder. Stated from the spec, for comparison with
`extractLabel`. -/
def extractLabelSpec (spans : List SpanEl) (now : Nat) : String :=
  match (spans.filterMap (fun sp => sp.title)).find? specTitleOk with
  | some t => jsTrim t
  | none =>
    match (spans.map spanText).find? specTextOk with
    | some s => jsTrim s
    | none => contactPlaceholder now

/-- Label extraction restated with the corrected conditions (raw-length
tests), formulated independently of the source's manual loops via `find?`;
the amended C4 proves it equal to `extractLabel`. -/
def extractLabelAmended (spans : List SpanEl) (now : Nat) : String :=
  match (spans.filterMap (fun sp => sp.title)).find? titleOk with
  | some t => jsTrim t
  | none =>
    match (spans.map spanText).find? textOk with
    | some s => jsTrim s
    | none => contactPlaceholder now

/-- Decoder for little-endian decimal digit lists (proof tool for the
injectivity of the placeholder timestamp). -/
def digitsVal : List Nat → Nat
  | [] => 0
  | d :: ds => d + 10 * digitsVal ds

/-! ### Concrete fixtures used by the witnesses -/

/-- A document whose generic listitem selector yields one conversation entry
labelled by a title attribute. -/
def docOneChat : Doc :=
  ⟨fun s => if s == "div[role=\"listitem\"]" then [⟨[⟨some "Alice", "", ""⟩]⟩] else []⟩

/-- A document in which every selector yields zero matches. -/
def docEmpty : Doc := ⟨fun _ => []⟩

/-- An entry labelled Alice, for the selector-chain witness. -/
def entA : ChatEntry := ⟨[⟨some "Alice", "", ""⟩]⟩

/-- An entry labelled Bob, for the selector-chain witness. -/
def entB : ChatEntry := ⟨[⟨some "Bob", "", ""⟩]⟩

/-- A query function where s1 matches nothing, s2 matches two nodes and s3
matches one node, as in the spec's selector-resolution example. -/
def qWitness : String → List ChatEntry :=
  fun s => if s == "s2" then [entA, entB] else if s == "s3" then [entA] else []

/-- Two consecutive ticks that both observe the Error sentinel snapshot. -/
def outageTicks : List TickInput :=
  [TickInput.work ["Error", "", ""] MailResult.ok,
   TickInput.work ["Error", "", ""] MailResult.ok]

/-! ### Helper lemmas -/

theorem string_data_append (a b : String) : (a ++ b).data = a.data ++ b.data := rfl

theorem append_left_cancel_str (a s t : String) (h : a ++ s = a ++ t) : s = t := by
  have h2 := congrArg String.data h
  rw [string_data_append, string_data_append] at h2
  exact String.ext (List.append_cancel_left h2)

theorem arraysEqual_eq_true_iff (a b : List String) : arraysEqual a b = true ↔ a = b := by
  induction a generalizing b with
  | nil => cases b <;> simp [arraysEqual]
  | cons x xs ih =>
    cases b with
    | nil => simp [arraysEqual]
    | cons y ys =>
      by_cases h : xs.length = ys.length
      · have ihy := ih ys
        simp only [arraysEqual, h, if_pos, List.length_cons] at ihy ⊢
        simp only [if_pos (congrArg (· + 1) h), List.zip_cons_cons, List.all_cons,
          Bool.and_eq_true, beq_iff_eq]
        constructor
        · rintro ⟨h1, h2⟩
          exact by rw [h1, ihy.mp h2]
        · rintro h12
          injection h12 with h1 h2
          exact ⟨h1, ihy.mpr h2⟩
      · have hne : (x :: xs).length ≠ (y :: ys).length := by
          simp [h]
        simp only [arraysEqual, if_neg hne]
        constructor
        · intro hf; exact absurd hf (by simp)
        · intro he; injection he with h1 h2; exact absurd (by rw [h2]) h

theorem digitsVal_natDigitsRevAux : ∀ (fuel n : Nat), n < fuel →
    digitsVal (natDigitsRevAux n fuel) = n := by
  intro fuel
  induction fuel with
  | zero => intro n h; omega
  | succ f ih =>
    intro n h
    by_cases h10 : n < 10
    · simp [natDigitsRevAux, h10, digitsVal]
    · have hdiv : n / 10 < f := by
        have h1 : n / 10 < n := Nat.div_lt_self (by omega) (by omega)
        omega
      simp only [natDigitsRevAux, if_neg h10, digitsVal, ih _ hdiv]
      omega

theorem digitsVal_natDigitsRev (n : Nat) : digitsVal (natDigitsRev n) = n :=
  digitsVal_natDigitsRevAux (n + 1) n (Nat.lt_succ_self n)

theorem natDigitsRev_inj (a b : Nat) (h : natDigitsRev a = natDigitsRev b) : a = b := by
  have := congrArg digitsVal h
  rwa [digitsVal_natDigitsRev, digitsVal_natDigitsRev] at this

theorem natDigitsRevAux_lt : ∀ (fuel n : Nat), ∀ d ∈ natDigitsRevAux n fuel, d < 10 := by
  intro fuel
  induction fuel with
  | zero => intro n d hd; simp [natDigitsRevAux] at hd
  | succ f ih =>
    intro n d hd
    by_cases h10 : n < 10
    · simp [natDigitsRevAux, h10] at hd; omega
    · simp only [natDigitsRevAux, if_neg h10, List.mem_cons] at hd
      rcases hd with h1 | h2
      · omega
      · exact ih _ _ h2

theorem digitChar_inj_lt : ∀ a < 10, ∀ b < 10, Nat.digitChar a = Nat.digitChar b → a = b := by
  decide

theorem map_digitChar_inj : ∀ (l1 l2 : List Nat), (∀ x ∈ l1, x < 10) → (∀ x ∈ l2, x < 10) →
    l1.map Nat.digitChar = l2.map Nat.digitChar → l1 = l2 := by
  intro l1
  induction l1 with
  | nil => intro l2 _ _ h; cases l2 <;> simp_all
  | cons x xs ih =>
    intro l2 h1 h2 h
    cases l2 with
    | nil => simp at h
    | cons y ys =>
      simp only [List.map_cons, List.cons.injEq] at h
      have hx : x = y := digitChar_inj_lt x (h1 x (by simp)) y (h2 y (by simp)) h.1
      have hxs : xs = ys :=
        ih ys (fun z hz => h1 z (by simp [hz])) (fun z hz => h2 z (by simp [hz])) h.2
      rw [hx, hxs]

theorem natToString_inj (a b : Nat) (h : natToString a = natToString b) : a = b := by
  unfold natToString at h
  have h1 := List.asString_inj.mp h
  have h2 := map_digitChar_inj _ _
    (fun x hx => natDigitsRevAux_lt _ _ x (List.mem_reverse.mp hx))
    (fun x hx => natDigitsRevAux_lt _ _ x (List.mem_reverse.mp hx)) h1
  exact natDigitsRev_inj a b (List.reverse_inj.mp h2)

theorem contactPlaceholder_inj (a b : Nat) (h : contactPlaceholder a = contactPlaceholder b) :
    a = b :=
  natToString_inj a b (append_left_cancel_str "Contact " _ _ h)

theorem padTo3_length (l : List String) : (padTo3 l).length = 3 := by
  simp [padTo3]
  omega

theorem padTo3_getD_of_le (l : List String) (i : Nat) (hi : i < 3) (hl : l.length ≤ i) :
    (padTo3 l).getD i "pad" = "" := by
  rw [padTo3, List.getD_eq_getElem?_getD, List.getElem?_take, if_pos hi,
    List.getElem?_append_right hl, List.getElem?_replicate_of_lt (by omega)]
  rfl

theorem getSimpleTop3Names_pad (d : Doc) (now : Nat)
    (hne : resolveChain d.query chatSelectors ≠ []) :
    getSimpleTop3Names d now false =
      padTo3 (((resolveChain d.query chatSelectors).take 3).map
        (fun c => extractLabel c.spans now)) := by
  have hc : ¬ (resolveChain d.query chatSelectors).length = 0 := by
    simpa [List.length_eq_zero] using hne
  simp [getSimpleTop3Names, hc]

theorem firstTitleMatch_eq_find (spans : List SpanEl) :
    firstTitleMatch spans = (spans.filterMap (fun sp => sp.title)).find? titleOk := by
  induction spans with
  | nil => rfl
  | cons sp rest ih =>
    cases ht : sp.title with
    | none => simp [firstTitleMatch, ht, List.filterMap_cons, ih]
    | some t =>
      simp only [firstTitleMatch, ht, List.filterMap_cons, List.find?_cons]
      cases hok : titleOk t with
      | true => simp [hok]
      | false => simp [hok, ih]

theorem firstTextMatch_eq_find (spans : List SpanEl) :
    firstTextMatch spans = (spans.map spanText).find? textOk := by
  induction spans with
  | nil => rfl
  | cons sp rest ih =>
    simp only [firstTextMatch, List.map_cons, List.find?_cons]
    cases hok : textOk (spanText sp) with
    | true => simp [hok]
    | false => simp [hok, ih]

theorem notifCount_const_zero (c : List String) (inputs : List TickInput)
    (hin : ∀ i ∈ inputs, ∃ mail, i = TickInput.work c mail) :
    notifCount c inputs = 0 := by
  induction inputs with
  | nil => rfl
  | cons i rest ih =>
    obtain ⟨mail, rfl⟩ := hin i (by simp)
    have hb : arraysEqual c c = true := (arraysEqual_eq_true_iff c c).mpr rfl
    simp only [notifCount, startMonitoringTick, hb, Bool.not_true, Bool.false_eq_true,
      if_false, Option.isSome_none]
    simpa using ih (fun j hj => hin j (by simp [hj]))

/-! ### Claim theorems -/

/-- C1: for every document state (0, 1, 2, 3 or more conversation entries,
no entries found at all, or an internal scraping exception) the snapshot
extractor `getSimpleTop3Names` returns normally, without raising, a sequence
of exactly 3 strings; entry slots beyond the matched conversations are
empty-string padding, and an internal error yields the Error sentinel
snapshot. -/
theorem getSimpleTop3Names_always_three (d : Doc) (now : Nat) (err : Bool) :
    (getSimpleTop3Names d now err).length = 3
    ∧ (err = true → getSimpleTop3Names d now err = ["Error", "", ""])
    ∧ (err = false → resolveChain d.query chatSelectors ≠ [] →
        ∀ i, i < 3 → (resolveChain d.query chatSelectors).length ≤ i →
          (getSimpleTop3Names d now err).getD i "pad" = "") := by
  refine ⟨?_, ?_, ?_⟩
  · cases err with
    | true => rfl
    | false =>
      by_cases hc : (resolveChain d.query chatSelectors).length = 0
      · simp [getSimpleTop3Names, hc]
      · simp [getSimpleTop3Names, hc, padTo3_length]
  · intro he; rw [he]; rfl
  · intro he hne i hi hlen
    rw [he, getSimpleTop3Names_pad d now hne]
    apply padTo3_getD_of_le _ _ hi
    rw [List.length_map, List.length_take]
    omega

/-- Witness for C1: a document with a single conversation entry pads slot 1
with the empty string, and an internal error yields the Error sentinel. -/
theorem getSimpleTop3Names_always_three_witness :
    (getSimpleTop3Names docOneChat 5 false).getD 1 "pad" = ""
    ∧ getSimpleTop3Names docOneChat 5 true = ["Error", "", ""] :=
  ⟨(getSimpleTop3Names_always_three docOneChat 5 false).2.2 rfl (by decide) 1 (by decide)
      (by decide),
   (getSimpleTop3Names_always_three docOneChat 5 true).2.1 rfl⟩

/-- C2: the change detector `arraysEqual` returns true exactly when the two
snapshots have equal length and equal strings at every position — i.e. when
they are equal as ordered sequences; it is reflexive and symmetric, and a
difference at any single position forces a false result. -/
theorem arraysEqual_spec (a b : List String) :
    (arraysEqual a b = true ↔ a = b)
    ∧ arraysEqual a a = true
    ∧ arraysEqual a b = arraysEqual b a
    ∧ (∀ i : Nat, a.getD i "" ≠ b.getD i "" → arraysEqual a b = false) := by
  refine ⟨arraysEqual_eq_true_iff a b, (arraysEqual_eq_true_iff a a).mpr rfl, ?_, ?_⟩
  · by_cases h : a = b
    · rw [h]
    · have h1 : arraysEqual a b = false := by
        cases hb : arraysEqual a b with
        | true => exact absurd ((arraysEqual_eq_true_iff a b).mp hb) h
        | false => rfl
      have h2 : arraysEqual b a = false := by
        cases hb : arraysEqual b a with
        | true => exact absurd ((arraysEqual_eq_true_iff b a).mp hb).symm h
        | false => rfl
      rw [h1, h2]
  · intro i hne
    cases hb : arraysEqual a b with
    | true =>
      exact absurd
        (congrArg (fun l => List.getD l i "") ((arraysEqual_eq_true_iff a b).mp hb)) hne
    | false => rfl

/-- Witness for C2: equal-content snapshots compare true; snapshots
differing at position 2 compare false. -/
theorem arraysEqual_spec_witness :
    arraysEqual ["Alice", "Bob", "Carol"] ["Alice", "Bob", "Carol"] = true
    ∧ arraysEqual ["Alice", "Bob", "Carol"] ["Alice", "Bob", "Dave"] = false :=
  ⟨(arraysEqual_spec ["Alice", "Bob", "Carol"] ["Alice", "Bob", "Carol"]).2.1,
   (arraysEqual_spec ["Alice", "Bob", "Carol"] ["Alice", "Bob", "Dave"]).2.2.2 2 (by decide)⟩

/-- C3: in every poll-loop tick, a snapshot differing from the baseline emits
exactly one notification and replaces the baseline with the new snapshot; an
equal snapshot emits nothing and leaves the baseline unchanged; hence a
subsequent tick with the same snapshot again emits no further notification. -/
theorem startMonitoringTick_change (saved snap : List String) (mail : MailResult) :
    (snap ≠ saved → startMonitoringTick saved (.work snap mail) =
        ⟨snap, some (sendTop3Notification mail), []⟩)
    ∧ (snap = saved → startMonitoringTick saved (.work snap mail) = ⟨saved, none, []⟩)
    ∧ (startMonitoringTick snap (.work snap mail)).sent = none := by
  refine ⟨?_, ?_, ?_⟩
  · intro hne
    have hb : arraysEqual snap saved = false := by
      cases hb : arraysEqual snap saved with
      | true => exact absurd ((arraysEqual_eq_true_iff snap saved).mp hb) hne
      | false => rfl
    simp [startMonitoringTick, hb]
  · intro he
    have hb : arraysEqual snap saved = true := (arraysEqual_eq_true_iff snap saved).mpr he
    simp [startMonitoringTick, hb]
  · have hb : arraysEqual snap snap = true := (arraysEqual_eq_true_iff snap snap).mpr rfl
    simp [startMonitoringTick, hb]

/-- Witness for C3, the spec's end-to-end scenario 2: baseline
Alice/Bob/Carol, new snapshot Dave/Alice/Bob — one notification and the
baseline updates; an identical third tick emits nothing. -/
theorem startMonitoringTick_change_witness :
    startMonitoringTick ["Alice", "Bob", "Carol"]
        (TickInput.work ["Dave", "Alice", "Bob"] MailResult.ok) =
      ⟨["Dave", "Alice", "Bob"], some true, []⟩
    ∧ (startMonitoringTick ["Dave", "Alice", "Bob"]
        (TickInput.work ["Dave", "Alice", "Bob"] MailResult.ok)).sent = none :=
  ⟨(startMonitoringTick_change ["Alice", "Bob", "Carol"] ["Dave", "Alice", "Bob"]
      MailResult.ok).1 (by decide),
   (startMonitoringTick_change ["Dave", "Alice", "Bob"] ["Dave", "Alice", "Bob"]
      MailResult.ok).2.2⟩

/-- C4 counterexample: the code tests the raw (untrimmed) length of a title
attribute, not the trimmed length the claim states. For the single entry
whose title attribute is the two-character value "a " (trimmed length 1),
the code extracts "a" while the claim's reading synthesizes a placeholder. -/
theorem extractLabel_trim_counterexample :
    extractLabel [⟨some "a ", "", ""⟩] 0 = "a"
    ∧ extractLabelSpec [⟨some "a ", "", ""⟩] 0 = contactPlaceholder 0
    ∧ extractLabel [⟨some "a ", "", ""⟩] 0 ≠ extractLabelSpec [⟨some "a ", "", ""⟩] 0 :=
  ⟨rfl, rfl, by decide⟩

/-- C4 amended: for each of the first min(3, matches) entries the label is
(a) the first descendant title attribute whose raw value has length strictly
between 1 and 50 and whose trimmed value is nonempty, returned trimmed; else
(b) the first descendant span whose raw text has length strictly between 1
and 50, has nonempty trim, does not match an HH:MM time pattern and does not
contain "http", returned trimmed; else (c) a synthesized placeholder. -/
theorem extractLabel_priority_amended (spans : List SpanEl) (now : Nat) (d : Doc)
    (err : Bool) :
    extractLabel spans now = extractLabelAmended spans now
    ∧ (err = false → resolveChain d.query chatSelectors ≠ [] →
        getSimpleTop3Names d now err =
          padTo3 (((resolveChain d.query chatSelectors).take 3).map
            (fun c => extractLabelAmended c.spans now))) := by
  have hlab : ∀ (sp : List SpanEl), extractLabel sp now = extractLabelAmended sp now := by
    intro sp
    rw [extractLabel, extractLabelAmended, firstTitleMatch_eq_find, firstTextMatch_eq_find]
  refine ⟨hlab spans, ?_⟩
  intro he hne
  rw [he, getSimpleTop3Names_pad d now hne]
  congr 1
  exact List.map_congr_left (fun c _ => hlab c.spans)

/-- Witness for the amended C4, instantiated at a concrete entry and the
one-chat document. -/
theorem extractLabel_priority_amended_witness :
    extractLabel [⟨some "a ", "x", "y"⟩] 0 = extractLabelAmended [⟨some "a ", "x", "y"⟩] 0
    ∧ getSimpleTop3Names docOneChat 5 false =
        padTo3 (((resolveChain docOneChat.query chatSelectors).take 3).map
          (fun c => extractLabelAmended c.spans 5)) :=
  ⟨(extractLabel_priority_amended [⟨some "a ", "x", "y"⟩] 0 docOneChat false).1,
   (extractLabel_priority_amended [] 5 docOneChat false).2 rfl (by decide)⟩

/-- C5: the selector resolver tries the queries of a chain in order and
returns the full result set of the first query yielding one or more matches;
if every query yields zero matches it returns the empty result. -/
theorem resolveChain_first_match (q : String → List ChatEntry) (c1 c2 : List String)
    (s : String) (h1 : ∀ x ∈ c1, q x = []) (h2 : q s ≠ []) :
    resolveChain q (c1 ++ s :: c2) = q s
    ∧ ∀ c : List String, (∀ x ∈ c, q x = []) → resolveChain q c = [] := by
  constructor
  · induction c1 with
    | nil =>
      have hp : 0 < (q s).length := List.length_pos.mpr h2
      simp [resolveChain, hp]
    | cons x xs ih =>
      have hx : q x = [] := h1 x (by simp)
      simp only [List.cons_append, resolveChain, hx]
      exact ih (fun y hy => h1 y (by simp [hy]))
  · intro c hc
    induction c with
    | nil => rfl
    | cons x xs ih =>
      have hx : q x = [] := hc x (by simp)
      simp only [resolveChain, hx]
      exact ih (fun y hy => hc y (by simp [hy]))

/-- Witness for C5, the spec's example: s1 matches nothing, s2 matches two
nodes, s3 matches one node — the two nodes from s2 are returned. -/
theorem resolveChain_first_match_witness :
    resolveChain qWitness ["s1", "s2", "s3"] = [entA, entB] := by
  have h := (resolveChain_first_match qWitness ["s1"] ["s3"] "s2" (by decide) (by decide)).1
  have hq : qWitness "s2" = [entA, entB] := rfl
  exact hq ▸ h

/-- C6: when the mail collaborator raises during a send, the error is caught
inside the notifier (which returns normally, recording the failed delivery),
the loop continues, and the baseline is still replaced by the new snapshot;
the next change event gets an independent send attempt. -/
theorem mail_failure_advances_baseline (saved snap next : List String)
    (rest : List TickInput) (h : snap ≠ saved) (h2 : next ≠ snap) :
    (startMonitoringTick saved (.work snap .raised)).saved = snap
    ∧ (startMonitoringTick saved (.work snap .raised)).sent = some false
    ∧ runLoop saved (.work snap .raised :: rest) = runLoop snap rest
    ∧ (startMonitoringTick snap (.work next .ok)).sent = some true := by
  have hb : arraysEqual snap saved = false := by
    cases hb : arraysEqual snap saved with
    | true => exact absurd ((arraysEqual_eq_true_iff snap saved).mp hb) h
    | false => rfl
  have hb2 : arraysEqual next snap = false := by
    cases hb2 : arraysEqual next snap with
    | true => exact absurd ((arraysEqual_eq_true_iff next snap).mp hb2) h2
    | false => rfl
  refine ⟨?_, ?_, ?_, ?_⟩
  · simp [startMonitoringTick, hb]
  · simp [startMonitoringTick, hb, sendTop3Notification]
  · simp [runLoop, startMonitoringTick, hb]
  · simp [startMonitoringTick, hb2, sendTop3Notification]

/-- Witness for C6: a failed delivery on the Alice-to-Dave change still
replaces the baseline with the new snapshot. -/
theorem mail_failure_advances_baseline_witness :
    (startMonitoringTick ["Alice", "Bob", "Carol"]
        (TickInput.work ["Dave", "Alice", "Bob"] MailResult.raised)).saved =
      ["Dave", "Alice", "Bob"]
    ∧ (startMonitoringTick ["Alice", "Bob", "Carol"]
        (TickInput.work ["Dave", "Alice", "Bob"] MailResult.raised)).sent = some false :=
  ⟨(mail_failure_advances_baseline ["Alice", "Bob", "Carol"] ["Dave", "Alice", "Bob"]
      ["Erin", "Dave", "Alice"] [] (by decide) (by decide)).1,
   (mail_failure_advances_baseline ["Alice", "Bob", "Carol"] ["Dave", "Alice", "Bob"]
      ["Erin", "Dave", "Alice"] [] (by decide) (by decide)).2.1⟩

/-- C7 counterexample: after a tick whose exception reaches the loop-level
catch handler, the waiting before the next tick's work is 10000 ms (the
handler's 5000 ms wait plus the next iteration's 5000 ms head wait), not the
5000 ms that follows a successful tick — the two inter-tick delays differ. -/
theorem failed_tick_delay_counterexample :
    delayBeforeNextWork ["Alice", "Bob", "Carol"] TickInput.exn = 10000
    ∧ delayBeforeNextWork ["Alice", "Bob", "Carol"]
        (TickInput.work ["Alice", "Bob", "Carol"] MailResult.ok) = 5000
    ∧ delayBeforeNextWork ["Alice", "Bob", "Carol"] TickInput.exn ≠
        delayBeforeNextWork ["Alice", "Bob", "Carol"]
          (TickInput.work ["Alice", "Bob", "Carol"] MailResult.ok) :=
  ⟨rfl, rfl, by decide⟩

/-- C7 amended: a transient failure inside one poll tick never terminates
the loop — the loop consumes the following ticks unchanged and emits no
notification for the failed tick. An extraction failure is caught at the
extractor boundary, the tick completes normally and the next tick follows
after the single fixed 5-second interval, exactly as after a successful
tick; a failure reaching the loop-level catch handler instead adds the
handler's extra 5-second wait, so the next tick's work follows after two
intervals (10 seconds) rather than one. -/
theorem failed_tick_continues_amended (saved snap : List String) (mail : MailResult)
    (rest : List TickInput) (d : Doc) (now : Nat) :
    runLoop saved (TickInput.exn :: rest) = runLoop saved rest
    ∧ notifCount saved (TickInput.exn :: rest) = notifCount saved rest
    ∧ delayBeforeNextWork saved TickInput.exn = headWait + headWait
    ∧ delayBeforeNextWork saved (TickInput.work snap mail) = headWait
    ∧ delayBeforeNextWork saved
        (TickInput.work (getSimpleTop3Names d now true) mail) = headWait := by
  refine ⟨rfl, ?_, rfl, ?_, ?_⟩
  · simp [notifCount, startMonitoringTick]
  · cases hb : arraysEqual snap saved <;>
      simp [delayBeforeNextWork, startMonitoringTick, hb, headWait]
  · cases hb : arraysEqual (getSimpleTop3Names d now true) saved <;>
      simp [delayBeforeNextWork, startMonitoringTick, hb, headWait]

/-- C8: whenever the fallback synthesis is used, the placeholder embeds the
extraction's Date.now() timestamp; the loop clock strictly increases across
ticks (each round waits 5000 ms plus the 1000 ms stabilization), so
placeholders produced by two distinct poll ticks are never equal. -/
theorem placeholder_unique_across_ticks (spans : List SpanEl) (t0 j k : Nat)
    (h1 : firstTitleMatch spans = none) (h2 : firstTextMatch spans = none) (hjk : j ≠ k) :
    extractLabel spans (extractTime t0 j) = contactPlaceholder (extractTime t0 j)
    ∧ extractLabel spans (extractTime t0 j) ≠ extractLabel spans (extractTime t0 k) := by
  have hlab : ∀ n : Nat, extractLabel spans n = contactPlaceholder n := by
    intro n
    rw [extractLabel, h1, h2]
  refine ⟨hlab _, ?_⟩
  rw [hlab, hlab]
  intro hc
  have := contactPlaceholder_inj _ _ hc
  simp only [extractTime] at this
  omega

/-- Witness for C8: an entry with no usable spans yields the placeholder,
and ticks 1 and 2 yield distinct placeholders. -/
theorem placeholder_unique_across_ticks_witness :
    extractLabel [] (extractTime 0 1) = contactPlaceholder (extractTime 0 1)
    ∧ extractLabel [] (extractTime 0 1) ≠ extractLabel [] (extractTime 0 2) :=
  placeholder_unique_across_ticks [] 0 1 2 rfl rfl (by decide)

/-- C9 counterexample: with all three email configuration values present, an
error raised by initialize() still exits the process with failure — missing
mandatory configuration is not the only error condition that halts the
process outright. -/
theorem init_failure_halts_counterexample :
    mainStartup ⟨some "user", some "pass", some "dest"⟩ InitOutcome.raised =
      ProcessResult.exitFailure
    ∧ configMissing ⟨some "user", some "pass", some "dest"⟩ = false :=
  ⟨rfl, rfl⟩

/-- C9 amended: a missing EMAIL_USER, EMAIL_PASS or EMAIL_TO halts startup
with a failure exit; the process halts exactly when configuration is missing
or initialization raises; errors arising inside a poll tick are contained to
that tick — the loop simply continues with the next ticks. -/
theorem mainStartup_halting_amended (env : Env) (init : InitOutcome) (saved : List String)
    (rest : List TickInput) :
    (configMissing env = true → mainStartup env init = ProcessResult.exitFailure)
    ∧ (mainStartup env init = ProcessResult.exitFailure ↔
        (configMissing env = true ∨ init = InitOutcome.raised))
    ∧ runLoop saved (TickInput.exn :: rest) = runLoop saved rest := by
  refine ⟨?_, ?_, rfl⟩
  · intro hm; simp [mainStartup, hm]
  · by_cases hm : configMissing env = true
    · simp [mainStartup, hm]
    · simp only [mainStartup, hm, if_false, Bool.not_eq_true] at *
      cases init with
      | ok => simp [hm]
      | raised => simp [hm]

/-- Witness for the amended C9: an unset EMAIL_USER halts startup. -/
theorem mainStartup_halting_amended_witness :
    mainStartup ⟨none, some "pass", some "dest"⟩ InitOutcome.ok = ProcessResult.exitFailure :=
  (mainStartup_halting_amended ⟨none, some "pass", some "dest"⟩ InitOutcome.ok [] []).1 rfl

/-- C10: the degraded snapshots are fixed constants — the Error sentinel is
independent of the document and timestamp, and the no-chats sentinel is the
constant No-chats triple — so ticks failing the same way produce snapshots
that compare equal, and a sustained outage emits at most one notification
(at the transition into the degraded state), never one per failing tick. -/
theorem sustained_outage_single_notification (saved c : List String)
    (inputs : List TickInput) (d : Doc) (n m : Nat)
    (hin : ∀ i ∈ inputs, ∃ mail, i = TickInput.work c mail) :
    getSimpleTop3Names d n true = getSimpleTop3Names d m true
    ∧ getSimpleTop3Names d n true = ["Error", "", ""]
    ∧ (resolveChain d.query chatSelectors = [] →
        getSimpleTop3Names d n false = ["No chats found", "", ""])
    ∧ notifCount saved inputs ≤ 1 := by
  refine ⟨rfl, rfl, ?_, ?_⟩
  · intro he
    have hc : (resolveChain d.query chatSelectors).length = 0 := by
      rw [he]; rfl
    simp [getSimpleTop3Names, hc]
  · cases inputs with
    | nil => simp [notifCount]
    | cons i rest =>
      obtain ⟨mail, rfl⟩ := hin i (by simp)
      have hrest : notifCount c rest = 0 :=
        notifCount_const_zero c rest (fun j hj => hin j (by simp [hj]))
      cases hb : arraysEqual c saved with
      | true =>
        have hcs : c = saved := (arraysEqual_eq_true_iff c saved).mp hb
        subst hcs
        simp only [notifCount, startMonitoringTick, hb, Bool.not_true, Bool.false_eq_true,
          if_false, Option.isSome_none]
        simp [hrest]
      | false =>
        simp only [notifCount, startMonitoringTick, hb, Bool.not_false, if_true]
        simp [hrest]

/-- Witness for C10: two consecutive Error-sentinel ticks produce at most
one notification. -/
theorem sustained_outage_single_notification_witness :
    notifCount ["Alice", "Bob", "Carol"] outageTicks ≤ 1 :=
  (sustained_outage_single_notification ["Alice", "Bob", "Carol"] ["Error", "", ""]
    outageTicks docEmpty 0 1
    (by
      intro i hi
      simp only [outageTicks, List.mem_cons, List.mem_singleton, List.not_mem_nil,
        or_false] at hi
      rcases hi with rfl | rfl <;> exact ⟨MailResult.ok, rfl⟩)).2.2.2

end Wpmail
